import Mathlib

/-
  Shallow embedding of src/force-app/main/default/lwc/productCartService/productCartService.js
  (LWC component ProductCartService).

  Modelling conventions:
  - JavaScript numbers that the component only ever uses as integral quantities,
    prices and counters are modelled as Int (Nat for list indices and pages).
  - A nullable / possibly-NaN entered quantity (the transient per-product qty
    field, set by handleQtyChange to Number(value)) is Option Int, with none
    standing for null or NaN: both are falsy, so the source guard
    (!qty || qty <= 0) treats them alike.
  - Toast notifications (ShowToastEvent) are collected as an explicit output
    list instead of a DOM event dispatch.
  - The setInterval / setTimeout side effects of saveAll are modelled as
    boolean fields of the returned outcome (countdownStarted, closeScheduled),
    and the image-scroll interval handle as a Bool field of the state
    (imageScrollInterval = true iff an interval handle is held).
  - The remote apex call addProducts is modelled by its two possible outcomes
    (RemoteResult.success / RemoteResult.failure); the source installs a .then
    callback and no .catch, which the saveAll model reflects.
-/

/-- A row of the product list fetched by getProductsByPricebook, with the
transient `qty` field added by loadProducts (`{ ...p, qty: null }`). -/
structure Product where
  productId : String
  name : String
  productCode : String
  Brand : Option String
  ProductFamily : Option String
  unitPrice : Int
  imageUrls : List String
  qty : Option Int
  deriving Repr, DecidableEq

/-- One cart line, as built by the add-to-cart handlers. -/
structure CartLine where
  productId : String
  name : String
  qty : Int
  price : Int
  total : Int
  deriving Repr, DecidableEq

/-- A ShowToastEvent payload. -/
structure Toast where
  title : String
  message : String
  variant : String
  deriving Repr, DecidableEq

/-- One serialized order line sent to the apex addProducts call. -/
structure OrderLine where
  product2Id : String
  quantity : Int
  unitPrice : Int
  deriving Repr, DecidableEq

/-- Outcome of the remote addProducts call. -/
inductive RemoteResult where
  | success
  | failure
  deriving Repr, DecidableEq

/-- The component state fields that the cart / filter / pagination / modal
logic reads and writes. -/
structure State where
  products : List Product
  filteredProducts : List Product
  cart : List CartLine
  selectedPricebookId : Option String
  parentCurrency : Option String
  pricebookSearchTerm : String
  showAllPricebooks : Bool
  countdown : Int
  progressWidth : Int
  showDetailsModal : Bool
  selectedProduct : Product
  selectedProductQty : Int
  selectedImageIndex : Nat
  imageScrollInterval : Bool
  isImageGalleryHovered : Bool
  productSearchTerm : String
  selectedCategory : String
  currentPage : Nat
  productsPerPage : Nat
  showCartModal : Bool
  cartMode : String
  deriving Repr, DecidableEq

/-- The empty object `{}` assigned to selectedProduct on modal close, read
through the same Product fields (all absent, hence empty defaults). -/
def emptyProduct : Product :=
  { productId := "", name := "", productCode := "", Brand := none,
    ProductFamily := none, unitPrice := 0, imageUrls := [], qty := none }

/-- JS `needle.isPrefixOf hay` on char lists: explicit recursion used by
containsChars below. -/
def isPrefixChars : List Char → List Char → Bool
  | [], _ => true
  | _ :: _, [] => false
  | a :: as, b :: bs => a == b && isPrefixChars as bs

/-- JS String.prototype.includes on char lists: some suffix of the haystack
starts with the needle. -/
def containsChars (needle : List Char) : List Char → Bool
  | [] => needle.isEmpty
  | b :: bs => isPrefixChars needle (b :: bs) || containsChars needle bs

/-- JS `hay.includes(needle)` (contiguous substring test). -/
def strIncludes (hay needle : String) : Bool :=
  containsChars needle.toList hay.toList

/-- JS String.prototype.toLowerCase. -/
def jsToLower (s : String) : String := s.map Char.toLower

/-- Getter filteredBySearchAndCategory: category filter (trimmed exact match
on ProductFamily, with the "All Products" sentinel short-circuiting), then
text filter (case-insensitive substring on name, productCode and optional
Brand; productSearchTerm is stored already lowercased by
handleProductSearch). -/
def filteredBySearchAndCategory (s : State) : List Product :=
  let step1 :=
    if s.selectedCategory ≠ "All Products" then
      s.products.filter (fun p =>
        (match p.ProductFamily with
         | some f => f.trim
         | none => "") == s.selectedCategory.trim)
    else s.products
  if s.productSearchTerm ≠ "" then
    step1.filter (fun p =>
      strIncludes (jsToLower p.name) s.productSearchTerm
      || strIncludes (jsToLower p.productCode) s.productSearchTerm
      || (match p.Brand with
          | some b => strIncludes (jsToLower b) s.productSearchTerm
          | none => false))
  else step1

/-- Getter totalPages: `Math.ceil(filtered.length / productsPerPage) || 1`.
For productsPerPage > 0, Math.ceil of the exact division is
(len + per - 1) / per in Nat; the `|| 1` turns a 0 page count into 1. -/
def totalPages (s : State) : Nat :=
  let len := (filteredBySearchAndCategory s).length
  let t := (len + s.productsPerPage - 1) / s.productsPerPage
  if t = 0 then 1 else t

/-- Getter paginatedProducts: `filtered.slice(start, start + per)` with
start = (currentPage - 1) * per, i.e. drop start then take per. The source
keeps currentPage ≥ 1, so the Nat truncation of currentPage - 1 at 0
coincides with the JS arithmetic on every reachable state. -/
def paginatedProducts (s : State) : List Product :=
  let start := (s.currentPage - 1) * s.productsPerPage
  ((filteredBySearchAndCategory s).drop start).take s.productsPerPage

/-- Getter canGoPrevious. -/
def canGoPrevious (s : State) : Bool := decide (1 < s.currentPage)

/-- Getter canGoNext. -/
def canGoNext (s : State) : Bool := decide (s.currentPage < totalPages s)

/-- handlePreviousPage: decrement only when canGoPrevious. -/
def handlePreviousPage (s : State) : State :=
  if canGoPrevious s then { s with currentPage := s.currentPage - 1 } else s

/-- handleNextPage: increment only when canGoNext. -/
def handleNextPage (s : State) : State :=
  if canGoNext s then { s with currentPage := s.currentPage + 1 } else s

/-- handlePageClick: sets currentPage to the page number carried by the
clicked button (dataset.page, an entry of pageNumbers). -/
def handlePageClick (s : State) (pageNum : Nat) : State :=
  { s with currentPage := pageNum }

/-- One entry of the pageNumbers getter. -/
structure PageEntry where
  number : Nat
  isActive : Bool
  btnClass : String
  deriving Repr, DecidableEq

/-- Getter pageNumbers: one button per page i = 1 .. totalPages. -/
def pageNumbers (s : State) : List PageEntry :=
  (List.range (totalPages s)).map (fun i =>
    { number := i + 1,
      isActive := (i + 1) == s.currentPage,
      btnClass := if (i + 1) == s.currentPage then "page-btn active" else "page-btn" })

/-- The update-or-append block shared verbatim by addToCart,
handleQuickAddToCart and addDetailsModalToCart. The source computes
`index = cart.findIndex(c => c.productId === id)` and, when index is not -1,
rebuilds the array with that one element replaced by
`{ ...item, qty: item.qty + qty, total: (item.qty + qty) * item.price }`;
updateFirstLine is that first-match replacement. -/
def updateFirstLine (cart : List CartLine) (id : String) (q : Int) : List CartLine :=
  match cart with
  | [] => []
  | c :: rest =>
    if c.productId == id then
      { c with qty := c.qty + q, total := (c.qty + q) * c.price } :: rest
    else
      c :: updateFirstLine rest id q

/-- The whole shared add block: update the first matching line when one
exists (findIndex succeeded), otherwise append a fresh line priced from the
catalog product. -/
def addLineToCart (cart : List CartLine) (id nm : String) (q price : Int) :
    List CartLine :=
  if cart.any (fun c => c.productId == id) then
    updateFirstLine cart id q
  else
    cart ++ [{ productId := id, name := nm, qty := q, price := price, total := q * price }]

/-- resetProductQty(productId): null out the transient qty of that product in
both products and filteredProducts. -/
def resetProductQty (s : State) (pid : String) : State :=
  { s with
    products := s.products.map (fun p =>
      if p.productId == pid then { p with qty := none } else p),
    filteredProducts := s.filteredProducts.map (fun p =>
      if p.productId == pid then { p with qty := none } else p) }

/-- resetAllProductQty: null out every transient qty; filteredProducts is
reassigned from the freshly rebuilt products list. -/
def resetAllProductQty (s : State) : State :=
  let ps := s.products.map (fun p => { p with qty := none })
  { s with products := ps, filteredProducts := ps }

/-- closeDetailsModal: close the overlay, discard the snapshot
(selectedProduct = {}), reset qty and image index, stop the carousel. -/
def closeDetailsModal (s : State) : State :=
  { s with showDetailsModal := false, selectedProduct := emptyProduct,
           selectedProductQty := 1, selectedImageIndex := 0,
           imageScrollInterval := false }

/-- addToCart (inline add): looks the product up by dataset id; reading
product.qty of an absent product throws in JS, modelled as none. With a
falsy or non-positive qty it toasts a validation error and returns without
touching the cart; otherwise it runs the shared add block and resets the
transient qty of that product. -/
def addToCart (s : State) (id : String) : Option (State × List Toast) :=
  match s.products.find? (fun p => p.productId == id) with
  | none => none
  | some product =>
    match product.qty with
    | none =>
      some (s, [{ title := "Invalid Quantity",
                  message := "Enter quantity greater than 0", variant := "error" }])
    | some q =>
      if q ≤ 0 then
        some (s, [{ title := "Invalid Quantity",
                    message := "Enter quantity greater than 0", variant := "error" }])
      else
        some (resetProductQty
                { s with cart := addLineToCart s.cart id product.name q product.unitPrice }
                id,
              [])

/-- handleQuickAddToCart: add with qty fixed at 1; unknown product ids toast
an error and leave the state untouched. -/
def handleQuickAddToCart (s : State) (id : String) : State × List Toast :=
  match s.products.find? (fun p => p.productId == id) with
  | none =>
    (s, [{ title := "Error", message := "Product not found", variant := "error" }])
  | some product =>
    ({ s with cart := addLineToCart s.cart id product.name 1 product.unitPrice },
     [{ title := "Success", message := product.name ++ " added to cart",
        variant := "success" }])

/-- addDetailsModalToCart: validate the modal quantity (the source guard is
`!qty || qty <= 0`; selectedProductQty is always a number here, so the guard
is q ≤ 0), then run the shared add block priced from the snapshot and close
the modal. -/
def addDetailsModalToCart (s : State) : State × List Toast :=
  let product := s.selectedProduct
  let q := s.selectedProductQty
  if q ≤ 0 then
    (s, [{ title := "Invalid Quantity",
           message := "Enter quantity greater than 0", variant := "error" }])
  else
    (closeDetailsModal
       { s with cart := addLineToCart s.cart product.productId product.name q product.unitPrice },
     [{ title := "Success", message := product.name ++ " added to cart",
        variant := "success" }])

/-- updateCartQty: absolute replacement of the quantity of every line whose
productId matches (at most one under the uniqueness invariant), recomputing
total from the stored line price. No validation of q. -/
def updateCartQty (s : State) (id : String) (q : Int) : State :=
  { s with cart := s.cart.map (fun c =>
      if c.productId == id then { c with qty := q, total := q * c.price } else c) }

/-- removeItem: drop every line whose productId matches. -/
def removeItem (s : State) (id : String) : State × List Toast :=
  ({ s with cart := s.cart.filter (fun c => ¬ (c.productId == id)) },
   [{ title := "Success", message := "Product removed from cart", variant := "success" }])

/-- closeCart: hide the cart modal, return to EDIT mode, null the transient
quantities. -/
def closeCart (s : State) : State :=
  resetAllProductQty { s with showCartModal := false, cartMode := "EDIT" }

/-- clearCart: empty the cart then closeCart. -/
def clearCart (s : State) : State :=
  closeCart { s with cart := [] }

/-- Getter totalAmount. -/
def totalAmount (s : State) : Int :=
  s.cart.foldl (fun sum c => sum + c.total) 0

/-- Result of a saveAll invocation: the post-call state, the toasts raised,
the serialized lines handed to the remote addProducts call, and the timer /
event side effects of the success branch. -/
structure SaveOutcome where
  state : State
  toasts : List Toast
  sentLines : List OrderLine
  countdownStarted : Bool
  refreshDispatched : Bool
  closeScheduled : Bool
  deriving Repr, DecidableEq

/-- saveAll: serialize the cart (no emptiness check), call addProducts, and
only in the .then callback switch to SUMMARY, show the modal, reset the
transient quantities, restart the countdown, dispatch the refresh event and
schedule closeSummary. There is no .catch: a failed call runs no callback,
so it changes nothing and raises no toast. -/
def saveAll (s : State) (r : RemoteResult) : SaveOutcome :=
  let lines := s.cart.map (fun c =>
    { product2Id := c.productId, quantity := c.qty, unitPrice := c.price })
  match r with
  | RemoteResult.success =>
    let s1 := resetAllProductQty { s with cartMode := "SUMMARY", showCartModal := true }
    let s2 := { s1 with countdown := 3, progressWidth := 100 }
    { state := s2, toasts := [], sentLines := lines,
      countdownStarted := true, refreshDispatched := true, closeScheduled := true }
  | RemoteResult.failure =>
    { state := s, toasts := [], sentLines := lines,
      countdownStarted := false, refreshDispatched := false, closeScheduled := false }

/-- nextImage (the carousel tick body): advance the index modulo the image
count, but only when there are at least two images. -/
def nextImage (s : State) : State :=
  if s.selectedProduct.imageUrls.length > 1 then
    { s with selectedImageIndex :=
        (s.selectedImageIndex + 1) % s.selectedProduct.imageUrls.length }
  else s

/-- stopImageScroll: clear the interval handle if one is held. -/
def stopImageScroll (s : State) : State :=
  { s with imageScrollInterval := false }

/-- startImageScroll: only with at least two images, clear any existing
interval and install a fresh one (whose tick is nextImage). -/
def startImageScroll (s : State) : State :=
  if s.selectedProduct.imageUrls.length > 1 then
    { stopImageScroll s with imageScrollInterval := true }
  else s

/-- One entry of the productImages getter (a gallery thumbnail). -/
structure ProductImage where
  url : String
  index : Nat
  isSelected : Bool
  btnClass : String
  deriving Repr, DecidableEq

/-- Getter productImages: the thumbnails rendered for the gallery, one per
image url with its index. -/
def productImages (s : State) : List ProductImage :=
  (s.selectedProduct.imageUrls.enum).map (fun iu =>
    { url := iu.2, index := iu.1,
      isSelected := iu.1 == s.selectedImageIndex,
      btnClass := if iu.1 == s.selectedImageIndex then "thumbnail-btn active" else "thumbnail-btn" })

/-- selectProductImage: jump to the clicked thumbnail index (dataset.index of
a productImages entry), mark the gallery hovered and pause the carousel (the
delayed resume is a timer outside this state-step model). -/
def selectProductImage (s : State) (index : Nat) : State :=
  stopImageScroll { s with selectedImageIndex := index, isImageGalleryHovered := true }

/-- The cart uniqueness invariant: at most one line per productId. -/
def cartKeysNodup (cart : List CartLine) : Prop :=
  (cart.map (fun c => c.productId)).Nodup

instance (cart : List CartLine) : Decidable (cartKeysNodup cart) := by
  unfold cartKeysNodup; infer_instance

/-- A sample catalog product with three gallery images and an entered qty. -/
def prodA : Product :=
  { productId := "p1", name := "Alpha Widget", productCode := "AW-1",
    Brand := some "Acme", ProductFamily := some "Service", unitPrice := 10,
    imageUrls := ["u1", "u2", "u3"], qty := some 2 }

/-- A sample catalog product with one image and no entered qty (null). -/
def prodB : Product :=
  { productId := "p2", name := "Beta", productCode := "B-2",
    Brand := none, ProductFamily := none, unitPrice := 4,
    imageUrls := ["v1"], qty := none }

/-- The cart line for prodA with qty 2. -/
def lineA : CartLine :=
  { productId := "p1", name := "Alpha Widget", qty := 2, price := 10, total := 20 }

/-- A reachable concrete state: price list chosen, both products loaded, the
detail modal holding prodA, one line in the cart. -/
def baseState : State :=
  { products := [prodA, prodB], filteredProducts := [prodA, prodB],
    cart := [lineA],
    selectedPricebookId := some "pb1", parentCurrency := some "USD",
    pricebookSearchTerm := "", showAllPricebooks := false,
    countdown := 3, progressWidth := 100,
    showDetailsModal := true, selectedProduct := prodA,
    selectedProductQty := 1, selectedImageIndex := 0,
    imageScrollInterval := true, isImageGalleryHovered := false,
    productSearchTerm := "", selectedCategory := "All Products",
    currentPage := 1, productsPerPage := 6,
    showCartModal := false, cartMode := "EDIT" }

/-- A reachable concrete state with an empty cart and a finished countdown,
as left behind by closeSummary after a previous submission cycle. -/
def emptyCartState : State :=
  { baseState with cart := [], countdown := 0, showDetailsModal := false,
                   selectedProduct := emptyProduct, imageScrollInterval := false }

/- ------------------------------------------------------------------ -/
/- Helper lemmas                                                       -/
/- ------------------------------------------------------------------ -/

/-- updateFirstLine only rewrites qty and total: the productId column of the
cart is untouched. -/
theorem updateFirstLine_map_pid (cart : List CartLine) (id : String) (q : Int) :
    (updateFirstLine cart id q).map (fun c => c.productId)
      = cart.map (fun c => c.productId) := by
  induction cart with
  | nil => rfl
  | cons c rest ih =>
    by_cases h : (c.productId == id) = true
    · simp [updateFirstLine, h]
    · simp only [Bool.not_eq_true] at h
      simp [updateFirstLine, h, ih]

/-- The shared add block preserves the at-most-one-line-per-productId
invariant. -/
theorem addLineToCart_nodup (cart : List CartLine) (id nm : String) (q pr : Int)
    (h : cartKeysNodup cart) : cartKeysNodup (addLineToCart cart id nm q pr) := by
  unfold addLineToCart
  by_cases hany : (cart.any (fun c => c.productId == id)) = true
  · rw [if_pos hany]
    unfold cartKeysNodup at h ⊢
    rw [updateFirstLine_map_pid]
    exact h
  · rw [if_neg hany]
    unfold cartKeysNodup at h ⊢
    rw [List.map_append]
    rw [List.nodup_append]
    refine ⟨h, by simp, ?_⟩
    intro a ha hb
    simp only [List.map_cons, List.map_nil, List.mem_cons, List.not_mem_nil,
      or_false] at hb
    rcases List.mem_map.mp ha with ⟨c, hc, hcid⟩
    apply hany
    rw [List.any_eq_true]
    exact ⟨c, hc, by rw [beq_iff_eq, hcid, hb]⟩

/-- When no line in front of c carries the same productId, updateFirstLine
rewrites exactly the line c, adding q to its quantity and recomputing total
from the stored line price. -/
theorem updateFirstLine_append (l1 l2 : List CartLine) (c : CartLine) (q : Int)
    (h : ∀ e ∈ l1, e.productId ≠ c.productId) :
    updateFirstLine (l1 ++ c :: l2) c.productId q
      = l1 ++ { c with qty := c.qty + q, total := (c.qty + q) * c.price } :: l2 := by
  induction l1 with
  | nil => simp [updateFirstLine]
  | cons a l1 ih =>
    have ha : (a.productId == c.productId) = false :=
      beq_eq_false_iff_ne.mpr (h a (by simp))
    simp only [List.cons_append, updateFirstLine, ha, Bool.false_eq_true,
      if_false, List.cons.injEq, true_and]
    exact ih (fun e he => h e (by simp [he]))

/-- Under the uniqueness invariant, adding to a cart that already holds a
line for the productId updates that line in place (stored price, additive
quantity) and moves nothing else. -/
theorem addLineToCart_increment (l1 l2 : List CartLine) (c : CartLine)
    (nm : String) (q pr : Int) (h : cartKeysNodup (l1 ++ c :: l2)) :
    addLineToCart (l1 ++ c :: l2) c.productId nm q pr
      = l1 ++ { c with qty := c.qty + q, total := (c.qty + q) * c.price } :: l2 := by
  have hany : ((l1 ++ c :: l2).any (fun e => e.productId == c.productId)) = true := by
    rw [List.any_eq_true]
    exact ⟨c, by simp, by simp⟩
  unfold addLineToCart
  rw [if_pos hany]
  apply updateFirstLine_append
  intro e he heq
  unfold cartKeysNodup at h
  rw [List.map_append, List.map_cons] at h
  rcases List.nodup_append.mp h with ⟨_, _, hdisj⟩
  exact hdisj (List.mem_map_of_mem _ he) (by simp [heq])

/-- Concatenating the first n slices of width per reconstructs the first
n * per elements. -/
theorem flatten_slices {α : Type} (l : List α) (per : Nat) :
    ∀ n : Nat,
      ((List.range n).map (fun i => (l.drop (i * per)).take per)).flatten
        = l.take (n * per) := by
  intro n
  induction n with
  | zero => simp
  | succ n ih =>
    rw [List.range_succ, List.map_append, List.flatten_append, ih]
    simp only [List.map_cons, List.map_nil, List.flatten_cons, List.flatten_nil,
      List.append_nil]
    rw [← List.take_add, Nat.succ_mul]

/-- The ceiling page count `(len + per - 1) / per || 1` is at least one. -/
theorem ceil_pages_pos (len per : Nat) :
    1 ≤ (if (len + per - 1) / per = 0 then 1 else (len + per - 1) / per) := by
  by_cases h0 : (len + per - 1) / per = 0
  · rw [if_pos h0]
  · rw [if_neg h0]
    exact Nat.pos_of_ne_zero h0

/-- The ceiling page count times the page width covers len. -/
theorem ceil_pages_mul_ge (len per : Nat) (hper : 0 < per) :
    len ≤ (if (len + per - 1) / per = 0 then 1 else (len + per - 1) / per) * per := by
  have h := Nat.div_add_mod (len + per - 1) per
  have hr : (len + per - 1) % per < per := Nat.mod_lt _ hper
  by_cases h0 : (len + per - 1) / per = 0
  · rw [if_pos h0]
    rw [h0, Nat.mul_zero, Nat.zero_add] at h
    omega
  · rw [if_neg h0]
    rw [Nat.mul_comm per ((len + per - 1) / per)] at h
    omega

/-- One page fewer than the ceiling page count does not cover a non-empty
len: the count is the exact ceiling. -/
theorem ceil_pages_mul_lt (len per : Nat) (hper : 0 < per) (hpos : 0 < len) :
    ((if (len + per - 1) / per = 0 then 1 else (len + per - 1) / per) - 1) * per
      < len := by
  have h := Nat.div_add_mod (len + per - 1) per
  have hr : (len + per - 1) % per < per := Nat.mod_lt _ hper
  by_cases h0 : (len + per - 1) / per = 0
  · rw [if_pos h0]
    simpa using hpos
  · rw [if_neg h0]
    rw [Nat.mul_comm per ((len + per - 1) / per)] at h
    rw [Nat.sub_mul, Nat.one_mul]
    omega

/-- The page count is never below one. -/
theorem totalPages_pos (s : State) : 1 ≤ totalPages s :=
  ceil_pages_pos (filteredBySearchAndCategory s).length s.productsPerPage

/-- Changing only the current page leaves the filtered list alone. -/
theorem filtered_setPage (s : State) (p : Nat) :
    filteredBySearchAndCategory { s with currentPage := p }
      = filteredBySearchAndCategory s := rfl

/-- paginatedProducts at page i + 1 is the i-th slice of the filtered list. -/
theorem paginated_setPage (s : State) (i : Nat) :
    paginatedProducts { s with currentPage := i + 1 }
      = ((filteredBySearchAndCategory s).drop (i * s.productsPerPage)).take
          s.productsPerPage := rfl

/-- All pages together cover the filtered list: its length is at most
totalPages * productsPerPage. -/
theorem length_le_totalPages_mul (s : State) (hper : 0 < s.productsPerPage) :
    (filteredBySearchAndCategory s).length ≤ totalPages s * s.productsPerPage :=
  ceil_pages_mul_ge (filteredBySearchAndCategory s).length s.productsPerPage hper

/-- With a non-empty filtered list, the previous page count would not cover
it: totalPages is the least sufficient page count (exact ceiling). -/
theorem totalPages_least (s : State) (hper : 0 < s.productsPerPage)
    (hpos : 0 < (filteredBySearchAndCategory s).length) :
    (totalPages s - 1) * s.productsPerPage < (filteredBySearchAndCategory s).length :=
  ceil_pages_mul_lt (filteredBySearchAndCategory s).length s.productsPerPage hper hpos

/-- An empty filtered list still yields one page. -/
theorem totalPages_of_empty (s : State) (hper : 0 < s.productsPerPage)
    (h0 : (filteredBySearchAndCategory s).length = 0) : totalPages s = 1 := by
  have hz : ((filteredBySearchAndCategory s).length + s.productsPerPage - 1)
      / s.productsPerPage = 0 := by
    rw [h0]
    exact Nat.div_eq_of_lt (by omega)
  show (if ((filteredBySearchAndCategory s).length + s.productsPerPage - 1)
          / s.productsPerPage = 0 then 1
        else ((filteredBySearchAndCategory s).length + s.productsPerPage - 1)
          / s.productsPerPage) = 1
  rw [if_pos hz]

/-- Indices produced by enumFrom n are below n plus the list length. -/
theorem enumFrom_fst_lt {α : Type} (l : List α) :
    ∀ (n : Nat) (x : Nat × α), x ∈ l.enumFrom n → x.1 < n + l.length := by
  induction l with
  | nil => intro n x hx; simp [List.enumFrom] at hx
  | cons a t ih =>
    intro n x hx
    simp only [List.enumFrom, List.mem_cons] at hx
    rcases hx with hx | hx
    · rw [hx]
      simp
    · have := ih (n + 1) x hx
      simp only [List.length_cons]
      omega

/- ------------------------------------------------------------------ -/
/- Claim theorems                                                      -/
/- ------------------------------------------------------------------ -/

/-- C1 (counterexample): invoking saveAll directly on a reachable state with
an empty cart does mutate the UI mode and the countdown when the remote
addProducts call resolves successfully — saveAll never re-checks emptiness,
so its success callback switches cartMode to SUMMARY and restarts the
countdown from the pre-call value 0 to 3. This falsifies the claim that
cartMode and countdown are unchanged after a direct empty-cart submit. -/
theorem claim_c1_counterexample :
    emptyCartState.cart = []
    ∧ emptyCartState.cartMode = "EDIT"
    ∧ emptyCartState.countdown = 0
    ∧ (saveAll emptyCartState RemoteResult.success).state.cartMode
        ≠ emptyCartState.cartMode
    ∧ (saveAll emptyCartState RemoteResult.success).state.countdown
        ≠ emptyCartState.countdown
    ∧ (saveAll emptyCartState RemoteResult.success).countdownStarted = true := by
  decide

/-- C1 (amended): saveAll does not re-validate cart emptiness. Invoked
directly with an empty cart it sends an empty line batch; when the remote
call fails (no .then callback runs) cartMode, countdown and every other
field are unchanged and no countdown starts, but when the remote call
succeeds the success callback runs regardless of emptiness, switching
cartMode to SUMMARY, resetting the countdown to 3 and starting it. -/
theorem claim_c1_amended (s : State) (h : s.cart = []) :
    (saveAll s RemoteResult.failure).state = s
    ∧ (saveAll s RemoteResult.failure).state.cartMode = s.cartMode
    ∧ (saveAll s RemoteResult.failure).state.countdown = s.countdown
    ∧ (saveAll s RemoteResult.failure).countdownStarted = false
    ∧ (saveAll s RemoteResult.failure).sentLines = []
    ∧ (saveAll s RemoteResult.success).state.cartMode = "SUMMARY"
    ∧ (saveAll s RemoteResult.success).state.countdown = 3
    ∧ (saveAll s RemoteResult.success).countdownStarted = true := by
  refine ⟨rfl, rfl, rfl, rfl, ?_, rfl, rfl, rfl⟩
  simp [saveAll, h]

/-- C1 (witness): the amended statement applied to the concrete reachable
empty-cart state. -/
theorem claim_c1_witness :
    (saveAll emptyCartState RemoteResult.failure).countdownStarted = false :=
  (claim_c1_amended emptyCartState rfl).2.2.2.1

/-- C2 (counterexample): when addProducts fails on a non-empty cart, the
state is indeed left intact, but no toast of any kind is raised — the source
installs no .catch on the promise, so the error is not surfaced to the user
as a notification, falsifying that part of the claim. -/
theorem claim_c2_counterexample :
    baseState.cart ≠ []
    ∧ (saveAll baseState RemoteResult.failure).state = baseState
    ∧ (saveAll baseState RemoteResult.failure).toasts = [] := by
  decide

/-- C2 (amended): when the remote addProducts call fails, saveAll performs
no state mutation at all — cartMode is not switched, the countdown is not
started, the cart and every other field are exactly as before the call — but
the error is not surfaced as a notification: the promise has no .catch, so
no toast is raised and the rejection goes unhandled. -/
theorem claim_c2_amended (s : State) :
    (saveAll s RemoteResult.failure).state = s
    ∧ (saveAll s RemoteResult.failure).toasts = []
    ∧ (saveAll s RemoteResult.failure).countdownStarted = false
    ∧ (saveAll s RemoteResult.failure).refreshDispatched = false
    ∧ (saveAll s RemoteResult.failure).closeScheduled = false :=
  ⟨rfl, rfl, rfl, rfl, rfl⟩

/-- C9: handleQuickAddToCart with a productId absent from the loaded product
list returns the state unchanged (same cart lines, length and totals) and
raises exactly the "Product not found" error toast. -/
theorem claim_c9 (s : State) (id : String)
    (h : ∀ p ∈ s.products, p.productId ≠ id) :
    handleQuickAddToCart s id
      = (s, [{ title := "Error", message := "Product not found",
               variant := "error" }]) := by
  have hf : s.products.find? (fun p => p.productId == id) = none := by
    rw [List.find?_eq_none]
    intro p hp
    simp [h p hp]
  unfold handleQuickAddToCart
  rw [hf]

/-- C9 (witness): quick-adding an id not in the catalog of the concrete
state leaves it unchanged and toasts the error. -/
theorem claim_c9_witness :
    handleQuickAddToCart baseState "zz"
      = (baseState, [{ title := "Error", message := "Product not found",
                       variant := "error" }]) :=
  claim_c9 baseState "zz" (by decide)

/-- C10: clearCart empties the cart, closes the cart modal, resets cartMode
to EDIT and nulls every transient product qty (rebuilding filteredProducts
from the reset products), while the rest of the state — the products list
apart from qty, the filters, the current page, the page size and the
selected price list — is untouched. -/
theorem claim_c10 (s : State) :
    (clearCart s).cart = []
    ∧ (clearCart s).showCartModal = false
    ∧ (clearCart s).cartMode = "EDIT"
    ∧ (clearCart s).products = s.products.map (fun p => { p with qty := none })
    ∧ (clearCart s).filteredProducts
        = s.products.map (fun p => { p with qty := none })
    ∧ (clearCart s).productSearchTerm = s.productSearchTerm
    ∧ (clearCart s).selectedCategory = s.selectedCategory
    ∧ (clearCart s).currentPage = s.currentPage
    ∧ (clearCart s).productsPerPage = s.productsPerPage
    ∧ (clearCart s).selectedPricebookId = s.selectedPricebookId
    ∧ (clearCart s).parentCurrency = s.parentCurrency
    ∧ (clearCart s).selectedProduct = s.selectedProduct
    ∧ (clearCart s).showDetailsModal = s.showDetailsModal :=
  ⟨rfl, rfl, rfl, rfl, rfl, rfl, rfl, rfl, rfl, rfl, rfl, rfl, rfl⟩

/-- C4: updateCartQty replaces the quantity of the line with the given
productId absolutely (qty becomes q, not qty + q) and recomputes its total
as q times the stored line price; every other line is untouched and the cart
length never changes. No validation is applied to q — the statement is
universal over q, including q ≤ 0, so a zero or negative quantity is
accepted and the line stays in the cart with that quantity and total. -/
theorem claim_c4 (s : State) (id : String) (q : Int) :
    ((updateCartQty s id q).cart.length = s.cart.length)
    ∧ (∀ c ∈ s.cart, c.productId = id →
         { c with qty := q, total := q * c.price } ∈ (updateCartQty s id q).cart)
    ∧ (∀ c ∈ s.cart, c.productId ≠ id → c ∈ (updateCartQty s id q).cart) := by
  refine ⟨by simp [updateCartQty], ?_, ?_⟩
  · intro c hc hcid
    show { c with qty := q, total := q * c.price }
      ∈ s.cart.map (fun e =>
          if e.productId == id then { e with qty := q, total := q * e.price } else e)
    refine List.mem_map.mpr ⟨c, hc, ?_⟩
    have hb : (c.productId == id) = true := beq_iff_eq.mpr hcid
    simp [hb]
  · intro c hc hcid
    show c ∈ s.cart.map (fun e =>
          if e.productId == id then { e with qty := q, total := q * e.price } else e)
    refine List.mem_map.mpr ⟨c, hc, ?_⟩
    have hb : (c.productId == id) = false := beq_eq_false_iff_ne.mpr hcid
    simp [hb]

/-- C4 (witness): updating the quantity of the concrete cart line to 0 is
accepted and leaves the line present with quantity 0 and total 0 * price. -/
theorem claim_c4_witness :
    { lineA with qty := (0 : Int), total := (0 : Int) * lineA.price }
      ∈ (updateCartQty baseState "p1" 0).cart :=
  (claim_c4 baseState "p1" 0).2.1 lineA (by decide) (by decide)

/-- C7: both line-creating mutations validate the quantity. addToCart with a
product whose entered qty is null / NaN (none) or ≤ 0, and
addDetailsModalToCart with a non-positive modal quantity, raise exactly the
"Invalid Quantity" toast and return the state unmutated — cart contents,
length and totals unchanged. (The modal quantity is always numeric: it is
initialised to 1 and only updated through guarded handlers.) -/
theorem claim_c7 :
    (∀ (s : State) (id : String) (product : Product),
        s.products.find? (fun p => p.productId == id) = some product →
        (product.qty = none ∨ ∃ q, product.qty = some q ∧ q ≤ 0) →
        addToCart s id
          = some (s, [{ title := "Invalid Quantity",
                        message := "Enter quantity greater than 0",
                        variant := "error" }]))
    ∧ (∀ s : State, s.selectedProductQty ≤ 0 →
        addDetailsModalToCart s
          = (s, [{ title := "Invalid Quantity",
                   message := "Enter quantity greater than 0",
                   variant := "error" }])) := by
  constructor
  · intro s id product hfind hbad
    rcases hbad with hnone | ⟨q, hq, hle⟩
    · simp [addToCart, hfind, hnone]
    · simp [addToCart, hfind, hq, hle]
  · intro s hle
    unfold addDetailsModalToCart
    simp only [if_pos hle]

/-- C7 (witness): the inline add on the concrete state rejects prodB, whose
entered qty is null, with the validation toast and no mutation. -/
theorem claim_c7_witness :
    addToCart baseState "p2"
      = some (baseState, [{ title := "Invalid Quantity",
                            message := "Enter quantity greater than 0",
                            variant := "error" }]) :=
  claim_c7.1 baseState "p2" prodB (by decide) (Or.inl rfl)

/-- C3: every add operation preserves the at-most-one-line-per-productId
invariant (stated for the shared add block and for each of the three
handlers); under that invariant, adding an already-present productId updates
that single line in place, incrementing its quantity by the added quantity
and recomputing total from the stored line price — the quickAdd conjunct
shows the result does not depend on the catalog unitPrice, so the stored
price is never re-read; and adding the same productId with quantity 2 and
then quantity 3 to an empty cart yields exactly one line with quantity 5 and
total 5 times the unit price. -/
theorem claim_c3 :
    (∀ (cart : List CartLine) (id nm : String) (q pr : Int),
        cartKeysNodup cart → cartKeysNodup (addLineToCart cart id nm q pr))
    ∧ (∀ (s : State) (id : String) (s' : State) (ts : List Toast),
        cartKeysNodup s.cart → addToCart s id = some (s', ts) →
        cartKeysNodup s'.cart)
    ∧ (∀ (s : State) (id : String),
        cartKeysNodup s.cart → cartKeysNodup ((handleQuickAddToCart s id).1.cart))
    ∧ (∀ s : State,
        cartKeysNodup s.cart → cartKeysNodup ((addDetailsModalToCart s).1.cart))
    ∧ (∀ (l1 l2 : List CartLine) (c : CartLine) (nm : String) (q pr : Int),
        cartKeysNodup (l1 ++ c :: l2) →
        addLineToCart (l1 ++ c :: l2) c.productId nm q pr
          = l1 ++ { c with qty := c.qty + q, total := (c.qty + q) * c.price } :: l2)
    ∧ (∀ (s : State) (product : Product) (l1 l2 : List CartLine) (c : CartLine),
        s.products.find? (fun p => p.productId == c.productId) = some product →
        s.cart = l1 ++ c :: l2 → cartKeysNodup s.cart →
        (handleQuickAddToCart s c.productId).1.cart
          = l1 ++ { c with qty := c.qty + 1, total := (c.qty + 1) * c.price } :: l2)
    ∧ (∀ (id nm : String) (pr : Int),
        addLineToCart (addLineToCart [] id nm 2 pr) id nm 3 pr
          = [{ productId := id, name := nm, qty := 5, price := pr, total := 5 * pr }]) := by
  refine ⟨?_, ?_, ?_, ?_, ?_, ?_, ?_⟩
  · exact fun cart id nm q pr h => addLineToCart_nodup cart id nm q pr h
  · intro s id s' ts hnd h
    cases hfind : s.products.find? (fun p => p.productId == id) with
    | none => simp [addToCart, hfind] at h
    | some product =>
      cases hq : product.qty with
      | none =>
        simp [addToCart, hfind, hq] at h
        rw [← h.1]
        exact hnd
      | some q =>
        by_cases hle : q ≤ 0
        · simp [addToCart, hfind, hq, hle] at h
          rw [← h.1]
          exact hnd
        · simp [addToCart, hfind, hq, hle] at h
          rw [← h.1]
          exact addLineToCart_nodup s.cart id product.name q product.unitPrice hnd
  · intro s id hnd
    cases hfind : s.products.find? (fun p => p.productId == id) with
    | none => simp [handleQuickAddToCart, hfind]; exact hnd
    | some product =>
      simp [handleQuickAddToCart, hfind]
      exact addLineToCart_nodup s.cart id product.name 1 product.unitPrice hnd
  · intro s hnd
    by_cases hle : s.selectedProductQty ≤ 0
    · simp [addDetailsModalToCart, hle]
      exact hnd
    · simp [addDetailsModalToCart, hle, closeDetailsModal]
      exact addLineToCart_nodup s.cart s.selectedProduct.productId
        s.selectedProduct.name s.selectedProductQty s.selectedProduct.unitPrice hnd
  · exact fun l1 l2 c nm q pr h => addLineToCart_increment l1 l2 c nm q pr h
  · intro s product l1 l2 c hfind hcart hnd
    have : (handleQuickAddToCart s c.productId).1.cart
        = addLineToCart s.cart c.productId product.name 1 product.unitPrice := by
      simp [handleQuickAddToCart, hfind]
    rw [this, hcart]
    rw [hcart] at hnd
    exact addLineToCart_increment l1 l2 c product.name 1 product.unitPrice hnd
  · intro id nm pr
    have h1 : addLineToCart [] id nm 2 pr
        = [{ productId := id, name := nm, qty := 2, price := pr, total := 2 * pr }] := by
      simp [addLineToCart]
    rw [h1]
    norm_num [addLineToCart, updateFirstLine]

/-- C3 (witness): quick-adding prodA (already in the concrete cart) keeps
the cart keys duplicate-free. -/
theorem claim_c3_witness :
    cartKeysNodup ((handleQuickAddToCart baseState "p1").1.cart) :=
  claim_c3.2.2.1 baseState "p1" (by decide)

/-- C5: for every state (any product list, search term, category and page
size, provided the positive page size the source fixes at 6), the current
page is a contiguous slice of filteredBySearchAndCategory of length at most
productsPerPage; concatenating the pages for currentPage = 1 .. totalPages
in order reconstructs filteredBySearchAndCategory exactly; and totalPages is
the ceiling of filteredCount / pageSize with minimum value 1 — at least 1
always, exactly 1 for an empty filtered list, and for a non-empty one the
least page count whose pages cover the whole filtered list. -/
theorem claim_c5 (s : State) (hper : 0 < s.productsPerPage) :
    (∃ i, paginatedProducts s
        = ((filteredBySearchAndCategory s).drop i).take s.productsPerPage)
    ∧ (paginatedProducts s).length ≤ s.productsPerPage
    ∧ ((List.range (totalPages s)).map
         (fun i => paginatedProducts { s with currentPage := i + 1 })).flatten
        = filteredBySearchAndCategory s
    ∧ 1 ≤ totalPages s
    ∧ ((filteredBySearchAndCategory s).length = 0 → totalPages s = 1)
    ∧ (0 < (filteredBySearchAndCategory s).length →
        (totalPages s - 1) * s.productsPerPage
            < (filteredBySearchAndCategory s).length
        ∧ (filteredBySearchAndCategory s).length
            ≤ totalPages s * s.productsPerPage) := by
  refine ⟨⟨(s.currentPage - 1) * s.productsPerPage, rfl⟩, ?_, ?_, totalPages_pos s,
    totalPages_of_empty s hper, fun hpos =>
      ⟨totalPages_least s hper hpos, length_le_totalPages_mul s hper⟩⟩
  · exact List.length_take_le s.productsPerPage _
  · have hmap : (List.range (totalPages s)).map
        (fun i => paginatedProducts { s with currentPage := i + 1 })
        = (List.range (totalPages s)).map
            (fun i => ((filteredBySearchAndCategory s).drop
                (i * s.productsPerPage)).take s.productsPerPage) :=
      List.map_congr_left (fun i _ => paginated_setPage s i)
    rw [hmap, flatten_slices]
    exact List.take_of_length_le (length_le_totalPages_mul s hper)

/-- C5 (witness): the pagination facts instantiated at the concrete state
(two products, page size 6). -/
theorem claim_c5_witness : 1 ≤ totalPages baseState :=
  (claim_c5 baseState (by decide)).2.2.2.1

/-- C6: from any state with currentPage within [1, totalPages],
handlePreviousPage at page 1 and handleNextPage at page totalPages are exact
no-ops (they return the state unchanged rather than erroring), both
operations keep currentPage within [1, totalPages], and clicking any page
button rendered by pageNumbers (direct page selection, whose dataset.page
values are exactly 1 .. totalPages) also lands within [1, totalPages]. -/
theorem claim_c6 (s : State) (h1 : 1 ≤ s.currentPage)
    (h2 : s.currentPage ≤ totalPages s) :
    (s.currentPage = 1 → handlePreviousPage s = s)
    ∧ (s.currentPage = totalPages s → handleNextPage s = s)
    ∧ (1 ≤ (handlePreviousPage s).currentPage
        ∧ (handlePreviousPage s).currentPage ≤ totalPages s)
    ∧ (1 ≤ (handleNextPage s).currentPage
        ∧ (handleNextPage s).currentPage ≤ totalPages s)
    ∧ (∀ e ∈ pageNumbers s,
        1 ≤ (handlePageClick s e.number).currentPage
        ∧ (handlePageClick s e.number).currentPage ≤ totalPages s) := by
  refine ⟨?_, ?_, ?_, ?_, ?_⟩
  · intro hp
    unfold handlePreviousPage canGoPrevious
    rw [hp]
    simp
  · intro hp
    unfold handleNextPage canGoNext
    rw [hp]
    simp
  · unfold handlePreviousPage canGoPrevious
    by_cases hgt : 1 < s.currentPage
    · rw [if_pos (by simpa using hgt)]
      constructor
      · show 1 ≤ s.currentPage - 1
        omega
      · show s.currentPage - 1 ≤ totalPages s
        omega
    · rw [if_neg (by simpa using hgt)]
      exact ⟨h1, h2⟩
  · unfold handleNextPage canGoNext
    by_cases hlt : s.currentPage < totalPages s
    · rw [if_pos (by simpa using hlt)]
      constructor
      · show 1 ≤ s.currentPage + 1
        omega
      · show s.currentPage + 1 ≤ totalPages s
        omega
    · rw [if_neg (by simpa using hlt)]
      exact ⟨h1, h2⟩
  · intro e he
    unfold pageNumbers at he
    rcases List.mem_map.mp he with ⟨i, hi, hie⟩
    have hilt : i < totalPages s := List.mem_range.mp hi
    have hnum : e.number = i + 1 := by rw [← hie]
    unfold handlePageClick
    refine ⟨?_, ?_⟩
    · show 1 ≤ e.number
      omega
    · show e.number ≤ totalPages s
      omega

/-- C6 (witness): boundary navigation on the concrete state (page 1 of 1)
leaves the page unchanged. -/
theorem claim_c6_witness : handlePreviousPage baseState = baseState :=
  (claim_c6 baseState (by decide) (by decide)).1 (by decide)

/-- nextImage never touches the product snapshot. -/
theorem nextImage_selectedProduct (s : State) :
    (nextImage s).selectedProduct = s.selectedProduct := by
  unfold nextImage
  split <;> rfl

/-- With at least two images, nextImage advances the index modulo the image
count. -/
theorem nextImage_index_of_many (s : State)
    (h : 1 < s.selectedProduct.imageUrls.length) :
    (nextImage s).selectedImageIndex
      = (s.selectedImageIndex + 1) % s.selectedProduct.imageUrls.length := by
  unfold nextImage
  rw [if_pos h]

/-- C8: while the modal snapshot has images and the index is in range, the
carousel tick (nextImage) keeps selectedImageIndex inside
[0, imageUrls.length), advancing it modulo the image count; selecting any
thumbnail rendered by productImages also lands in range; starting or
stopping the carousel never moves the index; with exactly 3 images the
successive ticks cycle the index 0 to 1 to 2 and back to 0; and with at most
one image startImageScroll installs no interval and nextImage is the
identity (auto-advance never occurs). -/
theorem claim_c8 :
    (∀ s : State, s.selectedImageIndex < s.selectedProduct.imageUrls.length →
        (nextImage s).selectedImageIndex
          < (nextImage s).selectedProduct.imageUrls.length)
    ∧ (∀ (s : State) (e : ProductImage), e ∈ productImages s →
        (selectProductImage s e.index).selectedImageIndex
          < (selectProductImage s e.index).selectedProduct.imageUrls.length)
    ∧ (∀ s : State,
        (startImageScroll s).selectedImageIndex = s.selectedImageIndex
        ∧ (stopImageScroll s).selectedImageIndex = s.selectedImageIndex
        ∧ (startImageScroll s).selectedProduct = s.selectedProduct)
    ∧ (∀ s : State, s.selectedProduct.imageUrls.length = 3 →
        s.selectedImageIndex = 0 →
        (nextImage s).selectedImageIndex = 1
        ∧ (nextImage (nextImage s)).selectedImageIndex = 2
        ∧ (nextImage (nextImage (nextImage s))).selectedImageIndex = 0)
    ∧ (∀ s : State, s.selectedProduct.imageUrls.length ≤ 1 →
        startImageScroll s = s ∧ nextImage s = s) := by
  refine ⟨?_, ?_, ?_, ?_, ?_⟩
  · intro s hidx
    rw [nextImage_selectedProduct]
    by_cases h : 1 < s.selectedProduct.imageUrls.length
    · rw [nextImage_index_of_many s h]
      exact Nat.mod_lt _ (by omega)
    · have hid : nextImage s = s := by
        unfold nextImage
        rw [if_neg h]
      rw [hid]
      exact hidx
  · intro s e he
    rcases List.mem_map.mp he with ⟨iu, hiu, hie⟩
    have hlt := enumFrom_fst_lt s.selectedProduct.imageUrls 0 iu hiu
    have hidx : e.index = iu.1 := by rw [← hie]
    show e.index < s.selectedProduct.imageUrls.length
    omega
  · intro s
    refine ⟨?_, rfl, ?_⟩
    · unfold startImageScroll stopImageScroll
      split <;> rfl
    · unfold startImageScroll stopImageScroll
      split <;> rfl
  · intro s h3 h0
    have hgt : 1 < s.selectedProduct.imageUrls.length := by omega
    have e1 : (nextImage s).selectedImageIndex = 1 := by
      rw [nextImage_index_of_many s hgt, h0, h3]
    have hp1 : (nextImage s).selectedProduct.imageUrls.length = 3 := by
      rw [nextImage_selectedProduct]
      exact h3
    have hgt1 : 1 < (nextImage s).selectedProduct.imageUrls.length := by
      rw [hp1]
      omega
    have e2 : (nextImage (nextImage s)).selectedImageIndex = 2 := by
      rw [nextImage_index_of_many _ hgt1, e1, hp1]
    have hp2 : (nextImage (nextImage s)).selectedProduct.imageUrls.length = 3 := by
      rw [nextImage_selectedProduct]
      exact hp1
    have hgt2 : 1 < (nextImage (nextImage s)).selectedProduct.imageUrls.length := by
      rw [hp2]
      omega
    have e3 : (nextImage (nextImage (nextImage s))).selectedImageIndex = 0 := by
      rw [nextImage_index_of_many _ hgt2, e2, hp2]
    exact ⟨e1, e2, e3⟩
  · intro s h
    constructor
    · unfold startImageScroll
      rw [if_neg (by omega)]
    · unfold nextImage
      rw [if_neg (by omega)]

/-- C8 (witness): on the concrete modal state (prodA, three images, index
0), one carousel tick advances the index to 1. -/
theorem claim_c8_witness : (nextImage baseState).selectedImageIndex = 1 :=
  (claim_c8.2.2.2.1 baseState (by decide) (by decide)).1
